import Mathlib

/-!
Verification of the mca-export-worker repository: a shallow embedding of
the export endpoint (src/app/main.py) and of the CSV helpers of the
sibling variants (src/api/app.py, src/api/main.py), with theorems about
the endpoint's observable contract.

Conventions of the embedding:
* Python strings are Lean `String`s; character-level operations go
  through `String.data`.
* Python byte outputs are `List Nat` (one `Nat` in 0..255 per byte),
  produced by an explicit UTF-8 encoder.
* `str.lower` and `str.strip` are modelled for ASCII text (the only text
  the endpoint's normalization tables contain); `Char.toLower` is
  ASCII-only, and `pyIsSpace` covers the six ASCII whitespace
  characters that `str.strip` removes.
-/

namespace MCA

/-- ASCII whitespace characters removed by Python `str.strip()`. -/
def pyIsSpace (c : Char) : Bool :=
  c = ' ' || c = '\t' || c = '\n' || c = '\r' || c = '\x0b' || c = '\x0c'

/-- Python `str.strip()`: drop whitespace from both ends. -/
def pyStrip (s : String) : String :=
  String.mk (((s.data.dropWhile pyIsSpace).reverse.dropWhile pyIsSpace).reverse)

/-- Python `str.lower()` (ASCII range). -/
def pyLower (s : String) : String :=
  String.mk (s.data.map Char.toLower)

/-- Python `str.endswith(suffix)`. -/
def pyEndsWith (s suffix : String) : Bool :=
  List.isSuffixOf suffix.data s.data

/-- Python `text.replace("\r", "")`: remove every carriage return. -/
def stripCR (s : String) : String :=
  String.mk (s.data.filter (fun c => c ≠ '\r'))

/-- Split a character list at every newline; like Python
`str.split("\n")` this always yields (number of newlines) + 1 pieces,
keeping empty pieces. -/
def splitNlChars : List Char → List (List Char)
  | [] => [[]]
  | c :: cs =>
    if c = '\n' then [] :: splitNlChars cs
    else
      match splitNlChars cs with
      | [] => [[c]]
      | r :: rs => (c :: r) :: rs

/-- Python `text.split("\n")`. -/
def splitNl (s : String) : List String :=
  (splitNlChars s.data).map String.mk

/-- UTF-8 encoding of one character (Python `str.encode("utf-8")`,
per scalar value). -/
def utf8Char (c : Char) : List Nat :=
  let n := c.toNat
  if n < 128 then [n]
  else if n < 2048 then [192 + n / 64, 128 + n % 64]
  else if n < 65536 then [224 + n / 4096, 128 + (n / 64) % 64, 128 + n % 64]
  else [240 + n / 262144, 128 + (n / 4096) % 64, 128 + (n / 64) % 64, 128 + n % 64]

/-- UTF-8 encoding of a string as a byte list. -/
def utf8Bytes (s : String) : List Nat :=
  s.data.flatMap utf8Char

/-- A parsed JSON value, as `json.loads` / FastAPI's `request.json()`
produce it. Numbers are modelled as integers. -/
inductive JVal where
  | null
  | bool (b : Bool)
  | num (n : Int)
  | str (s : String)
  | arr (xs : List JVal)
  | obj (fields : List (String × JVal))

/-- Python truthiness of a JSON value (`None`, `False`, `0`, `""`, `[]`
and an empty dict are falsy). -/
def pyTruthy : JVal → Bool
  | .null => false
  | .bool b => b
  | .num n => n != 0
  | .str s => s != ""
  | .arr xs => !xs.isEmpty
  | .obj fs => !fs.isEmpty

/-- Python `a or b`: the first operand when truthy, otherwise the
second. -/
def pyOr (a b : JVal) : JVal :=
  if pyTruthy a then a else b

/-- Escape one character for Python `repr` with quote character `q`. -/
def pyReprCharEsc (q c : Char) : List Char :=
  if c = '\\' then ['\\', '\\']
  else if c = q then ['\\', q]
  else if c = '\n' then ['\\', 'n']
  else if c = '\r' then ['\\', 'r']
  else if c = '\t' then ['\\', 't']
  else [c]

/-- Python `repr` of a string: single-quoted unless the string contains
a single quote and no double quote. Modelled for printable text (exotic
control and non-printable characters are left unescaped). -/
def pyReprStr (s : String) : String :=
  let q : Char := if s.data.contains '\x27' && !s.data.contains '"' then '"' else '\x27'
  String.mk ((q :: s.data.flatMap (pyReprCharEsc q)) ++ [q])

mutual

/-- Python `repr` of a JSON value (used by `str` on lists and dicts). -/
def pyRepr : JVal → String
  | .null => "None"
  | .bool true => "True"
  | .bool false => "False"
  | .num n => toString n
  | .str s => pyReprStr s
  | .arr xs => "[" ++ pyReprList xs ++ "]"
  | .obj fs => "\x7b" ++ pyReprFields fs ++ "\x7d"

/-- Comma-separated `repr`s of list elements. -/
def pyReprList : List JVal → String
  | [] => ""
  | [x] => pyRepr x
  | x :: xs => pyRepr x ++ ", " ++ pyReprList xs

/-- Comma-separated `repr(key): repr(value)` pairs of a dict. -/
def pyReprFields : List (String × JVal) → String
  | [] => ""
  | [(k, v)] => pyReprStr k ++ ": " ++ pyRepr v
  | (k, v) :: fs => pyReprStr k ++ ": " ++ pyRepr v ++ ", " ++ pyReprFields fs

end

/-- Python `str` applied to a JSON value. -/
def pyStr : JVal → String
  | .str s => s
  | .num n => toString n
  | .bool true => "True"
  | .bool false => "False"
  | .null => "None"
  | v => pyRepr v

/-- Python `dict.get(key)` on a parsed JSON object (`none` models the
`None` returned for an absent key; for duplicate keys `json.loads`
keeps the last binding). Non-objects have no keys. -/
def jget (v : JVal) (k : String) : Option JVal :=
  match v with
  | .obj fields => (fields.reverse.find? (fun p => p.1 == k)).map (fun p => p.2)
  | _ => none

/-- The value `dict.get(key)` yields, with absence as Python `None`. -/
def jgetD (v : JVal) (k : String) : JVal :=
  (jget v k).getD .null

/-- Python `isinstance(body, dict)`. -/
def JVal.isObj : JVal → Bool
  | .obj _ => true
  | _ => false

/-- Model of `csv.writer` (excel dialect, QUOTE_MINIMAL): a field is quoted iff it
contains the delimiter, the quote character, or a line-terminator
character; quote characters are doubled inside a quoted field. -/
def csvField (line : String) : String :=
  if line.data.any (fun c => c = ',' || c = '"' || c = '\r' || c = '\n') then
    "\"" ++ String.mk (line.data.flatMap (fun c => if c = '"' then ['"', '"'] else [c])) ++ "\""
  else line

/-- One `writer.writerow([line])` record: the encoded field followed by
the excel-dialect line terminator CRLF, except that a record consisting
of a single empty field is written as the quoted empty field so the
emitted line is not empty. -/
def csvRow (line : String) : String :=
  (if line = "" then "\"\"" else csvField line) ++ "\r\n"

/-- Sequential `writer.writerow([line])` calls: the concatenation of the
single-field records. -/
def csvText : List String → String
  | [] => ""
  | line :: rest => csvRow line ++ csvText rest

end MCA

namespace MCA.App

/-- The row strings `generate_csv` in src/app/main.py feeds to
`writer.writerow`, one per line: `text.replace("\r", "").split("\n")`. -/
def csvRows (text : String) : List String :=
  splitNl (stripCR text)

/-- Function `generate_csv` of src/app/main.py: one single-column row per line of
`text` after removing carriage returns, UTF-8 encoded. -/
def generate_csv (text : String) : List Nat :=
  utf8Bytes (csvText (csvRows text))

/-- The expression `str(body.get("type") or body.get("format") or body.get("export_type")
or "")`: the raw export type read in `generate` of src/app/main.py. -/
def rawTypeOf (body : JVal) : String :=
  pyStr (pyOr (pyOr (pyOr (jgetD body "type") (jgetD body "format"))
    (jgetD body "export_type")) (.str ""))

/-- The filename string `normalize_export_type` reads:
`(body.get("filename") or "")`. A truthy non-string value would raise
`AttributeError` at the subsequent `.lower()` in the source; theorems
about filename inference therefore assume the field is absent, falsy,
or a string. -/
def filenameOf (body : JVal) : String :=
  match pyOr (jgetD body "filename") (.str "") with
  | .str s => s
  | _ => ""

/-- The `aliases` dict lookup `aliases.get(raw, raw)` of
`normalize_export_type`. -/
def aliasGet (r : String) : String :=
  if r = "word" then "docx"
  else if r = "doc" then "docx"
  else if r = "docx" then "docx"
  else if r = "pdf" then "pdf"
  else if r = "csv" then "csv"
  else if r = "excel" then "csv"
  else if r = "spreadsheet" then "csv"
  else r

/-- Function `normalize_export_type` of src/app/main.py: strip and lowercase the
raw value; if empty, infer from the lowercased filename's extension;
finally apply the alias table with pass-through. -/
def normalize_export_type (raw : String) (body : JVal) : String :=
  let raw1 := pyLower (pyStrip raw)
  let raw2 :=
    if raw1 = "" then
      let filename := pyLower (filenameOf body)
      if pyEndsWith filename ".pdf" then "pdf"
      else if pyEndsWith filename ".docx" || pyEndsWith filename ".doc" then "docx"
      else if pyEndsWith filename ".csv" then "csv"
      else raw1
    else raw1
  aliasGet raw2

/-- The normalized export type `generate` computes for a body:
`normalize_export_type(raw_type, body)`. -/
def exportTypeOfBody (body : JVal) : String :=
  normalize_export_type (rawTypeOf body) body

/-- A JSON value used by the source as a string (`.strip()`, the
renderers). A truthy non-string would raise in the source; theorems
assume the relevant field is absent, falsy, or a string. -/
def strVal : JVal → String
  | .str s => s
  | _ => ""

/-- The expression `(body.get("title") or "Solace Export").strip()`. -/
def titleOf (body : JVal) : String :=
  pyStrip (strVal (pyOr (jgetD body "title") (.str "Solace Export")))

/-- The expression `body.get("content") or ""`. -/
def contentOf (body : JVal) : String :=
  strVal (pyOr (jgetD body "content") (.str ""))

/-- Non-empty trimmed lines of `text`: the loop shared by `generate_pdf`
and `generate_docx` (strip each piece of `text.split("\n")`, skip the
empty ones). -/
def bodyParagraphs (text : String) : List String :=
  ((splitNl text).map pyStrip).filter (fun l => l ≠ "")

/-- The reportlab story `generate_pdf` builds and hands to `doc.build`:
a bold heading from the title, then one BodyText paragraph per non-empty
trimmed line of the content. The byte rendering itself is external. -/
def pdf_story (title text : String) : List String :=
  ("<b>" ++ title ++ "</b>") :: bodyParagraphs text

/-- The python-docx document `generate_docx` builds and saves: the title
as a level-1 heading, then one paragraph per non-empty trimmed line of
the content. The byte serialization itself is external. -/
def docx_document (title text : String) : List String :=
  title :: bodyParagraphs text

/-- The observable HTTP response of the endpoint: an `HTTPException`
carries a status and a detail; a successful `Response` carries status
200, the rendered bytes, a media type, a `Content-Disposition` and an
`X-MCA-Export-Type` header. -/
structure Response where
  status : Nat
  detail : Option String
  data : Option (List Nat)
  mediaType : Option String
  contentDisposition : Option String
  xExportType : Option String
deriving DecidableEq

/-- A `raise HTTPException(status_code=..., detail=...)` response. -/
def httpException (status : Nat) (detail : String) : Response :=
  ⟨status, some detail, none, none, none, none⟩

/-- The `POST /api/generate` handler of src/app/main.py. `key` is
`PY_WORKER_KEY`; `auth` is the `authorization` header (FastAPI's
`headers.get(..., "")` makes a missing header the empty string);
`body?` is the outcome of `request.json()` (`none` means parsing
raised). `pdfBuild` and `docxSave` are the external reportlab and
python-docx byte producers applied to the story/document the handler
builds; `Except.error` models an exception raised inside them. -/
def generate (key auth : String) (body? : Option JVal)
    (pdfBuild docxSave : List String → Except String (List Nat)) : Response :=
  if key = "" then
    httpException 500 "Worker misconfigured: PY_WORKER_KEY is not set."
  else if auth ≠ "Bearer " ++ key then
    httpException 401 "Unauthorized"
  else
    match body? with
    | none => httpException 400 "Invalid JSON body"
    | some body =>
      if !body.isObj then
        httpException 400 "Request body must be a JSON object."
      else
        let export_type := exportTypeOfBody body
        let title := titleOf body
        let content := contentOf body
        if export_type = "" then
          httpException 400 "Missing \x27type\x27 field (expected \x27pdf\x27, \x27docx\x27, or \x27csv\x27)."
        else if !(export_type = "pdf" || export_type = "docx" || export_type = "csv") then
          httpException 400
            ("Unsupported type: \x27" ++ export_type ++
              "\x27. Supported types are: \x27pdf\x27, \x27docx\x27, \x27csv\x27.")
        else
          let rendered : Except String (List Nat) × String × String :=
            if export_type = "pdf" then
              (pdfBuild (pdf_story title content), "application/pdf", "solace-export.pdf")
            else if export_type = "docx" then
              (docxSave (docx_document title content),
               "application/vnd.openxmlformats-officedocument.wordprocessingml.document",
               "solace-export.docx")
            else
              (Except.ok (generate_csv content), "text/csv", "solace-export.csv")
          match rendered with
          | (Except.error _, _, _) =>
            httpException 500 "Export worker encountered an error while generating the file."
          | (Except.ok data, media_type, filename) =>
            ⟨200, none, some data, some media_type,
             some ("inline; filename=\"" ++ filename ++ "\""), some export_type⟩

end MCA.App

namespace MCA.ApiApp

/-- Function `make_csv` of src/api/app.py: same construction as
`MCA.App.generate_csv`, written in that file's own terms. -/
def make_csv (text : String) : List Nat :=
  utf8Bytes (csvText (splitNl (stripCR text)))

end MCA.ApiApp

namespace MCA.ApiMain

/-- Function `generate_csv` of src/api/main.py: `rows = text.replace("\r",
"").split("\n")`, then one `writerow([r])` per row. -/
def generate_csv (text : String) : List Nat :=
  let rows := splitNl (stripCR text)
  utf8Bytes (csvText rows)

end MCA.ApiMain

namespace MCA.App

/-- The fixed media type the endpoint assigns to each supported export
type (src/app/main.py, dispatch branches). -/
def mediaTypeFor : String → String
  | "pdf" => "application/pdf"
  | "docx" => "application/vnd.openxmlformats-officedocument.wordprocessingml.document"
  | "csv" => "text/csv"
  | _ => ""

/-- The fixed filename the endpoint assigns to each supported export
type. -/
def filenameFor : String → String
  | "pdf" => "solace-export.pdf"
  | "docx" => "solace-export.docx"
  | "csv" => "solace-export.csv"
  | _ => ""

/-- The complete rendered bytes for a supported type: the external
builder's output for pdf/docx applied to the story/document the handler
builds, the in-repo CSV bytes for csv. -/
def renderedBytes (pdfBuild docxSave : List String → Except String (List Nat))
    (t title content : String) : Except String (List Nat) :=
  if t = "pdf" then pdfBuild (pdf_story title content)
  else if t = "docx" then docxSave (docx_document title content)
  else Except.ok (generate_csv content)

/-- A field value that is absent, falsy, or a string: the shapes for
which the source's string operations on the field do not raise and
`str()` returns the taken string unchanged. -/
def strOk (v? : Option JVal) : Prop :=
  match v? with
  | none => True
  | some (JVal.str _) => True
  | some v => pyTruthy v = false

/-- The first non-empty of the three type fields in priority order, read
as strings: the raw-type read as the spec describes it. -/
def specRawType (body : JVal) : String :=
  let t := strVal (jgetD body "type")
  let f := strVal (jgetD body "format")
  let e := strVal (jgetD body "export_type")
  if t ≠ "" then t else if f ≠ "" then f else e

/-- The filename-extension inference step of `normalize_export_type`,
isolated: applied between trimming/lowercasing and the alias table. -/
def inferExt (raw : String) (body : JVal) : String :=
  if raw = "" then
    let filename := pyLower (filenameOf body)
    if pyEndsWith filename ".pdf" then "pdf"
    else if pyEndsWith filename ".docx" || pyEndsWith filename ".doc" then "docx"
    else if pyEndsWith filename ".csv" then "csv"
    else raw
  else raw

/-- The normalization pipeline exactly as claim C4 states it: priority
read, lowercase and trim, alias table with pass-through — and no
filename-extension inference step. Stated from the claim's words for
comparison with `normalize_export_type`. -/
def c4ClaimPipeline (body : JVal) : String :=
  aliasGet (pyLower (pyStrip (rawTypeOf body)))

end MCA.App

open MCA MCA.App

theorem splitNlChars_ne_nil (l : List Char) : splitNlChars l ≠ [] := by
  cases l with
  | nil => simp [splitNlChars]
  | cons c cs =>
    simp only [splitNlChars]
    split
    · simp
    · split <;> simp

theorem splitNlChars_length (l : List Char) :
    (splitNlChars l).length = l.count '\n' + 1 := by
  induction l with
  | nil => simp [splitNlChars]
  | cons c cs ih =>
    simp only [splitNlChars]
    by_cases hc : c = '\n'
    · subst hc
      simp [List.count_cons, ih]
    · rw [if_neg hc]
      cases h : splitNlChars cs with
      | nil => exact absurd h (splitNlChars_ne_nil cs)
      | cons r rs =>
        rw [h] at ih
        simp only [List.length_cons] at ih ⊢
        simp [List.count_cons, hc, ih]

theorem utf8Char_ne_nil (c : Char) : utf8Char c ≠ [] := by
  dsimp only [utf8Char]
  split
  · simp
  · split
    · simp
    · split <;> simp

theorem utf8Bytes_ne_nil (s : String) (h : s.data ≠ []) : utf8Bytes s ≠ [] := by
  unfold utf8Bytes
  cases hd : s.data with
  | nil => exact absurd hd h
  | cons c cs =>
    simp [List.flatMap_cons, List.append_eq_nil, utf8Char_ne_nil]

theorem csvText_cons_data_ne_nil (r : String) (rs : List String) :
    (csvText (r :: rs)).data ≠ [] := by
  simp only [csvText, csvRow]
  rw [String.data_append, String.data_append]
  simp [show ("\r\n" : String).data = ['\r', '\n'] from rfl]

/-- C6: on content "a\n\nb" the CSV renderer produces exactly the three
rows "a", "", "b" (carriage returns are stripped before splitting, the
blank line is kept as an empty row), while on "line1\n\nline2" the PDF
story and the DOCX document carry exactly the two body paragraphs
"line1" and "line2" after the heading — the blank line contributes
nothing. -/
theorem c6_blank_line_asymmetry :
    MCA.App.csvRows "a\n\nb" = ["a", "", "b"] ∧
    MCA.App.generate_csv "a\n\nb" = utf8Bytes "a\r\n\"\"\r\nb\r\n" ∧
    pdf_story "T" "line1\n\nline2" = ["<b>T</b>", "line1", "line2"] ∧
    docx_document "T" "line1\n\nline2" = ["T", "line1", "line2"] :=
  ⟨rfl, rfl, rfl, rfl⟩

/-- C10: the three string-buffer CSV implementations are extensionally
equal: `make_csv` (src/api/app.py), `generate_csv` (src/api/main.py) and
`generate_csv` (src/app/main.py) produce identical bytes on every
input. -/
theorem c10_csv_variants_agree (text : String) :
    MCA.ApiApp.make_csv text = MCA.ApiMain.generate_csv text ∧
    MCA.ApiMain.generate_csv text = MCA.App.generate_csv text :=
  ⟨rfl, rfl⟩

theorem splitNl_ne_nil (s : String) : splitNl s ≠ [] := by
  unfold splitNl
  simp [splitNlChars_ne_nil]

/-- C9: for every content string the CSV renderer yields a number of
rows equal to one plus the number of newline characters remaining after
all carriage returns are removed; the empty content yields exactly one
empty row, and the CSV output bytes are never empty. -/
theorem c9_csv_rows_and_nonempty (text : String) :
    (MCA.App.csvRows text).length = (stripCR text).data.count '\n' + 1 ∧
    MCA.App.generate_csv text ≠ [] ∧
    MCA.App.csvRows "" = [""] ∧
    MCA.App.generate_csv "" = utf8Bytes "\"\"\r\n" := by
  refine ⟨?_, ?_, rfl, rfl⟩
  · simp [MCA.App.csvRows, splitNl, splitNlChars_length]
  · unfold MCA.App.generate_csv
    cases h : MCA.App.csvRows text with
    | nil =>
      exact absurd h (by unfold MCA.App.csvRows; exact splitNl_ne_nil _)
    | cons r rs =>
      exact utf8Bytes_ne_nil _ (csvText_cons_data_ne_nil r rs)

/-- C2: with the secret unset or empty every request to the endpoint
fails with HTTP 500 and the misconfiguration detail — a failure distinct
from the 401 auth failure — and with the secret set, any authorization
header other than exactly "Bearer <secret>" (compared by exact string
equality) fails with HTTP 401 regardless of the request body. -/
theorem c2_secret_and_auth_gate (key auth : String) (body? : Option JVal)
    (pdfBuild docxSave : List String → Except String (List Nat)) :
    (key = "" →
      generate key auth body? pdfBuild docxSave =
        httpException 500 "Worker misconfigured: PY_WORKER_KEY is not set.") ∧
    (key ≠ "" → auth ≠ "Bearer " ++ key →
      generate key auth body? pdfBuild docxSave = httpException 401 "Unauthorized") ∧
    (httpException 500 "Worker misconfigured: PY_WORKER_KEY is not set.").status ≠
      (httpException 401 "Unauthorized").status := by
  refine ⟨?_, ?_, by decide⟩
  · intro h
    subst h
    rfl
  · intro hk ha
    unfold generate
    rw [if_neg hk, if_pos ha]

/-- Witness for C2: the empty secret yields the 500 misconfiguration
response, and a set secret with a missing authorization header yields
401. -/
theorem c2_secret_and_auth_gate_witness :
    generate "" "Bearer x" none (fun _ => Except.ok []) (fun _ => Except.ok []) =
      httpException 500 "Worker misconfigured: PY_WORKER_KEY is not set." ∧
    generate "k" "" none (fun _ => Except.ok []) (fun _ => Except.ok []) =
      httpException 401 "Unauthorized" :=
  ⟨(c2_secret_and_auth_gate "" "Bearer x" none _ _).1 rfl,
   (c2_secret_and_auth_gate "k" "" none _ _).2.1 (by decide) (by decide)⟩

/-- C3: after successful authentication every validation failure returns
HTTP 400: an unparseable body, a parsed body that is not a JSON object,
an empty normalized type (with the missing-type message), and a
non-empty normalized type outside pdf/docx/csv (with a message naming
the unsupported type). -/
theorem c3_validation_failures (key auth : String)
    (pdfBuild docxSave : List String → Except String (List Nat))
    (hkey : key ≠ "") (hauth : auth = "Bearer " ++ key) :
    generate key auth none pdfBuild docxSave =
      httpException 400 "Invalid JSON body" ∧
    (∀ body : JVal, body.isObj = false →
      generate key auth (some body) pdfBuild docxSave =
        httpException 400 "Request body must be a JSON object.") ∧
    (∀ body : JVal, body.isObj = true → exportTypeOfBody body = "" →
      generate key auth (some body) pdfBuild docxSave =
        httpException 400
          "Missing \x27type\x27 field (expected \x27pdf\x27, \x27docx\x27, or \x27csv\x27).") ∧
    (∀ (body : JVal) (t : String), body.isObj = true → exportTypeOfBody body = t →
      t ≠ "" → ¬(t = "pdf" ∨ t = "docx" ∨ t = "csv") →
      generate key auth (some body) pdfBuild docxSave =
        httpException 400
          ("Unsupported type: \x27" ++ t ++
            "\x27. Supported types are: \x27pdf\x27, \x27docx\x27, \x27csv\x27.")) := by
  subst hauth
  have hbearer : ¬("Bearer " ++ key ≠ "Bearer " ++ key) := fun h => h rfl
  refine ⟨?_, ?_, ?_, ?_⟩
  · unfold generate
    rw [if_neg hkey, if_neg hbearer]
  · intro body hobj
    unfold generate
    rw [if_neg hkey, if_neg hbearer]
    simp [hobj]
  · intro body hobj hty
    unfold generate
    rw [if_neg hkey, if_neg hbearer]
    simp [hobj, hty]
  · intro body t hobj hty hne hnsupp
    rcases not_or.mp hnsupp with ⟨n1, rest⟩
    rcases not_or.mp rest with ⟨n2, n3⟩
    unfold generate
    rw [if_neg hkey, if_neg hbearer]
    simp [hobj, hty, hne, n1, n2, n3]

/-- Witness for C3: concrete requests with valid auth exercising all
four validation failures. -/
theorem c3_validation_failures_witness :
    generate "k" "Bearer k" none (fun _ => Except.ok []) (fun _ => Except.ok []) =
      httpException 400 "Invalid JSON body" ∧
    generate "k" "Bearer k" (some (JVal.arr [])) (fun _ => Except.ok [])
      (fun _ => Except.ok []) =
      httpException 400 "Request body must be a JSON object." ∧
    generate "k" "Bearer k" (some (JVal.obj [])) (fun _ => Except.ok [])
      (fun _ => Except.ok []) =
      httpException 400
        "Missing \x27type\x27 field (expected \x27pdf\x27, \x27docx\x27, or \x27csv\x27)." ∧
    generate "k" "Bearer k" (some (JVal.obj [("type", JVal.str "xml")]))
      (fun _ => Except.ok []) (fun _ => Except.ok []) =
      httpException 400
        "Unsupported type: \x27xml\x27. Supported types are: \x27pdf\x27, \x27docx\x27, \x27csv\x27." :=
  have C := c3_validation_failures "k" "Bearer k"
    (fun _ => Except.ok []) (fun _ => Except.ok []) (by decide) rfl
  ⟨C.1, C.2.1 (JVal.arr []) rfl, C.2.2.1 (JVal.obj []) rfl rfl,
   C.2.2.2 (JVal.obj [("type", JVal.str "xml")]) "xml" rfl rfl (by decide) (by decide)⟩

/-- C7: the rendering title defaults to "Solace Export" when the title
field is absent or empty and is trimmed of surrounding whitespace; the
content defaults to the empty string when the content field is
absent. -/
theorem c7_title_content_defaults (body : JVal) :
    ((jget body "title" = none ∨ jget body "title" = some (JVal.str "")) →
      titleOf body = "Solace Export") ∧
    (∀ s : String, s ≠ "" → jget body "title" = some (JVal.str s) →
      titleOf body = pyStrip s) ∧
    (jget body "content" = none → contentOf body = "") := by
  refine ⟨?_, ?_, ?_⟩
  · intro h
    unfold titleOf jgetD
    rcases h with h | h <;> rw [h] <;> rfl
  · intro s hs h
    unfold titleOf jgetD
    rw [h]
    simp [pyOr, pyTruthy, strVal, hs]
  · intro h
    unfold contentOf jgetD
    rw [h]
    rfl

/-- Witness for C7 at concrete bodies: empty body, whitespace-padded
title, absent content. -/
theorem c7_title_content_defaults_witness :
    titleOf (JVal.obj []) = "Solace Export" ∧
    titleOf (JVal.obj [("title", JVal.str " Hi ")]) = pyStrip " Hi " ∧
    contentOf (JVal.obj []) = "" :=
  ⟨(c7_title_content_defaults (JVal.obj [])).1 (Or.inl rfl),
   (c7_title_content_defaults (JVal.obj [("title", JVal.str " Hi ")])).2.1 " Hi "
     (by decide) rfl,
   (c7_title_content_defaults (JVal.obj [])).2.2 rfl⟩

theorem pyOr_strOk (v? : Option JVal) (h : strOk v?) (w : JVal) :
    pyOr (v?.getD JVal.null) w =
      if strVal (v?.getD JVal.null) = "" then w
      else JVal.str (strVal (v?.getD JVal.null)) := by
  match v? with
  | none => simp [pyOr, pyTruthy, strVal]
  | some (JVal.str s) =>
    by_cases hs : s = "" <;> simp [pyOr, pyTruthy, strVal, hs]
  | some JVal.null => simp [pyOr, pyTruthy, strVal]
  | some (JVal.bool b) =>
    have hb : pyTruthy (JVal.bool b) = false := h
    simp [pyOr, hb, strVal]
  | some (JVal.num n) =>
    have hn : pyTruthy (JVal.num n) = false := h
    simp [pyOr, hn, strVal]
  | some (JVal.arr xs) =>
    have hx : pyTruthy (JVal.arr xs) = false := h
    simp [pyOr, hx, strVal]
  | some (JVal.obj fs) =>
    have hf : pyTruthy (JVal.obj fs) = false := h
    simp [pyOr, hf, strVal]

theorem rawTypeOf_eq_specRawType (body : JVal)
    (h1 : strOk (jget body "type")) (h2 : strOk (jget body "format"))
    (h3 : strOk (jget body "export_type")) :
    rawTypeOf body = specRawType body := by
  unfold rawTypeOf specRawType jgetD
  by_cases ht : strVal ((jget body "type").getD JVal.null) = ""
  · rw [pyOr_strOk _ h1, if_pos ht]
    by_cases hf : strVal ((jget body "format").getD JVal.null) = ""
    · rw [pyOr_strOk _ h2, if_pos hf]
      by_cases he : strVal ((jget body "export_type").getD JVal.null) = ""
      · rw [pyOr_strOk _ h3, if_pos he]
        simp [pyStr, ht, hf, he]
      · rw [pyOr_strOk _ h3, if_neg he]
        simp [pyOr, pyTruthy, pyStr, ht, hf, he]
    · rw [pyOr_strOk _ h2, if_neg hf]
      simp [pyOr, pyTruthy, pyStr, ht, hf]
  · rw [pyOr_strOk _ h1, if_neg ht]
    simp [pyOr, pyTruthy, pyStr, ht]

/-- C4 as stated is falsified by a body whose only field is a filename:
the raw type is empty, and the claim says an empty value passes through
the alias table unchanged (giving ""), yet the code's normalization
returns "pdf" via the filename-inference step the claim omits. -/
theorem c4_counterexample :
    exportTypeOfBody (JVal.obj [("filename", JVal.str "report.pdf")]) = "pdf" ∧
    c4ClaimPipeline (JVal.obj [("filename", JVal.str "report.pdf")]) = "" :=
  ⟨rfl, rfl⟩

/-- C4 amended: for every body whose type-bearing fields are each
absent, falsy, or a string, the raw type is the first non-empty of
type, format, export_type in priority order; the normalized type is
that value lowercased and trimmed, then — when empty — replaced by the
filename-inferred type, then mapped through the alias table
word|doc→docx, excel|spreadsheet→csv, pdf→pdf, csv→csv, docx→docx, with
any other value passing through the alias table unchanged; in
particular raw "Word" normalizes to docx and "EXCEL" to csv. -/
theorem c4_amended_normalization (body : JVal)
    (h1 : strOk (jget body "type")) (h2 : strOk (jget body "format"))
    (h3 : strOk (jget body "export_type")) :
    rawTypeOf body = specRawType body ∧
    exportTypeOfBody body =
      aliasGet (inferExt (pyLower (pyStrip (specRawType body))) body) ∧
    aliasGet "word" = "docx" ∧ aliasGet "doc" = "docx" ∧ aliasGet "docx" = "docx" ∧
    aliasGet "excel" = "csv" ∧ aliasGet "spreadsheet" = "csv" ∧
    aliasGet "pdf" = "pdf" ∧ aliasGet "csv" = "csv" ∧
    (∀ s : String, s ∉ ["word", "doc", "docx", "pdf", "csv", "excel", "spreadsheet"] →
      aliasGet s = s) ∧
    exportTypeOfBody (JVal.obj [("type", JVal.str "Word")]) = "docx" ∧
    exportTypeOfBody (JVal.obj [("type", JVal.str "EXCEL")]) = "csv" := by
  have hraw := rawTypeOf_eq_specRawType body h1 h2 h3
  refine ⟨hraw, ?_, rfl, rfl, rfl, rfl, rfl, rfl, rfl, ?_, rfl, rfl⟩
  · unfold exportTypeOfBody
    rw [hraw]
    rfl
  · intro s hs
    simp only [List.mem_cons, List.not_mem_nil, or_false, not_or] at hs
    obtain ⟨n1, n2, n3, n4, n5, n6, n7⟩ := hs
    simp [aliasGet, n1, n2, n3, n4, n5, n6, n7]

/-- Witness for C4 (amended) at the concrete body with raw type
"Word". -/
theorem c4_amended_normalization_witness :
    rawTypeOf (JVal.obj [("type", JVal.str "Word")]) =
      specRawType (JVal.obj [("type", JVal.str "Word")]) ∧
    exportTypeOfBody (JVal.obj [("type", JVal.str "Word")]) =
      aliasGet (inferExt
        (pyLower (pyStrip (specRawType (JVal.obj [("type", JVal.str "Word")]))))
        (JVal.obj [("type", JVal.str "Word")])) :=
  have C := c4_amended_normalization (JVal.obj [("type", JVal.str "Word")])
    (by exact True.intro) (by exact True.intro) (by exact True.intro)
  ⟨C.1, C.2.1⟩

theorem filenameOf_of_jget (body : JVal) (fn : String)
    (h : jget body "filename" = some (JVal.str fn)) : filenameOf body = fn := by
  unfold filenameOf jgetD
  rw [h]
  by_cases hfn : fn = ""
  · subst hfn
    simp [pyOr, pyTruthy]
  · simp [pyOr, pyTruthy, hfn]

/-- C5 as stated is falsified at empty type with filename "report.PDF":
the claim says a non-lowercase extension yields no inferred type, but
`normalize_export_type` lowercases the filename before the suffix
checks and returns "pdf". -/
theorem c5_counterexample :
    exportTypeOfBody (JVal.obj [("filename", JVal.str "report.PDF")]) = "pdf" :=
  rfl

/-- C5 amended: when the lowercased, trimmed type is empty and the body
carries a string filename, the type is inferred from the extension of
the LOWERCASED filename — .pdf→pdf, .docx/.doc→docx, .csv→csv — so the
check is case-insensitive: both "report.pdf" and "report.PDF" yield
pdf. -/
theorem c5_amended_inference (body : JVal) (fn : String)
    (hempty : pyLower (pyStrip (rawTypeOf body)) = "")
    (hfn : jget body "filename" = some (JVal.str fn)) :
    exportTypeOfBody body =
      (if pyEndsWith (pyLower fn) ".pdf" then "pdf"
       else if pyEndsWith (pyLower fn) ".docx" || pyEndsWith (pyLower fn) ".doc" then
         "docx"
       else if pyEndsWith (pyLower fn) ".csv" then "csv"
       else "") ∧
    exportTypeOfBody (JVal.obj [("filename", JVal.str "report.pdf")]) = "pdf" ∧
    exportTypeOfBody (JVal.obj [("filename", JVal.str "report.PDF")]) = "pdf" := by
  refine ⟨?_, rfl, rfl⟩
  have hfile := filenameOf_of_jget body fn hfn
  unfold exportTypeOfBody normalize_export_type
  simp only [hempty, hfile, if_pos]
  by_cases h1 : pyEndsWith (pyLower fn) ".pdf"
  · simp [h1]
    rfl
  · by_cases h2 : pyEndsWith (pyLower fn) ".docx" || pyEndsWith (pyLower fn) ".doc"
    · simp [h1, h2]
      rfl
    · by_cases h3 : pyEndsWith (pyLower fn) ".csv"
      · simp [h1, h2, h3]
        rfl
      · simp [h1, h2, h3]
        rfl

/-- Witness for C5 (amended) at the concrete body with empty type and
filename "report.pdf". -/
theorem c5_amended_inference_witness :
    exportTypeOfBody (JVal.obj [("filename", JVal.str "report.pdf")]) =
      (if pyEndsWith (pyLower "report.pdf") ".pdf" then "pdf"
       else if pyEndsWith (pyLower "report.pdf") ".docx" ||
           pyEndsWith (pyLower "report.pdf") ".doc" then "docx"
       else if pyEndsWith (pyLower "report.pdf") ".csv" then "csv"
       else "") :=
  (c5_amended_inference (JVal.obj [("filename", JVal.str "report.pdf")])
    "report.pdf" rfl rfl).1

/-- C1: every request that passes authentication and whose normalized
type T is pdf, docx or csv gets HTTP 200 with the fixed media type for
T, a Content-Disposition of the form inline; filename="solace-export.ext"
with the fixed filename for T, the complete rendered bytes as body, and
an X-MCA-Export-Type header equal to T. -/
theorem c1_supported_type_success (key auth : String) (body : JVal)
    (pdfBuild docxSave : List String → Except String (List Nat)) (t : String)
    (d : List Nat)
    (hkey : key ≠ "") (hauth : auth = "Bearer " ++ key) (hobj : body.isObj = true)
    (ht : exportTypeOfBody body = t)
    (hsupp : t = "pdf" ∨ t = "docx" ∨ t = "csv")
    (hrender : renderedBytes pdfBuild docxSave t (titleOf body) (contentOf body) =
      Except.ok d) :
    generate key auth (some body) pdfBuild docxSave =
      ⟨200, none, some d, some (mediaTypeFor t),
       some ("inline; filename=\"" ++ filenameFor t ++ "\""), some t⟩ ∧
    mediaTypeFor "pdf" = "application/pdf" ∧
    mediaTypeFor "docx" =
      "application/vnd.openxmlformats-officedocument.wordprocessingml.document" ∧
    mediaTypeFor "csv" = "text/csv" ∧
    filenameFor "pdf" = "solace-export.pdf" ∧
    filenameFor "docx" = "solace-export.docx" ∧
    filenameFor "csv" = "solace-export.csv" := by
  refine ⟨?_, rfl, rfl, rfl, rfl, rfl, rfl⟩
  subst hauth
  have hbearer : ¬("Bearer " ++ key ≠ "Bearer " ++ key) := fun h => h rfl
  unfold generate
  rw [if_neg hkey, if_neg hbearer]
  unfold renderedBytes at hrender
  rcases hsupp with h | h | h
  · subst h
    rw [if_pos rfl] at hrender
    simp [hobj, ht, hrender, mediaTypeFor, filenameFor]
  · subst h
    rw [if_neg (by decide), if_pos rfl] at hrender
    simp [hobj, ht, hrender, mediaTypeFor, filenameFor]
  · subst h
    rw [if_neg (by decide), if_neg (by decide)] at hrender
    simp only [Except.ok.injEq] at hrender
    simp [hobj, ht, hrender, mediaTypeFor, filenameFor]

/-- Witness for C1: a concrete authenticated CSV request. -/
theorem c1_supported_type_success_witness :
    generate "k" "Bearer k"
      (some (JVal.obj [("type", JVal.str "csv"), ("content", JVal.str "x")]))
      (fun _ => Except.ok []) (fun _ => Except.ok []) =
      ⟨200, none,
       some (MCA.App.generate_csv
         (contentOf (JVal.obj [("type", JVal.str "csv"), ("content", JVal.str "x")]))),
       some (mediaTypeFor "csv"),
       some ("inline; filename=\"" ++ filenameFor "csv" ++ "\""), some "csv"⟩ :=
  (c1_supported_type_success "k" "Bearer k"
    (JVal.obj [("type", JVal.str "csv"), ("content", JVal.str "x")])
    (fun _ => Except.ok []) (fun _ => Except.ok []) "csv"
    (MCA.App.generate_csv
      (contentOf (JVal.obj [("type", JVal.str "csv"), ("content", JVal.str "x")])))
    (by decide) rfl rfl rfl (Or.inr (Or.inr rfl)) rfl).1

theorem generate_data_none_or_status200 (key auth : String) (body? : Option JVal)
    (pdfBuild docxSave : List String → Except String (List Nat)) :
    (generate key auth body? pdfBuild docxSave).data = none ∨
    (generate key auth body? pdfBuild docxSave).status = 200 := by
  unfold generate
  by_cases hk : key = ""
  · rw [if_pos hk]
    exact Or.inl rfl
  rw [if_neg hk]
  by_cases ha : auth ≠ "Bearer " ++ key
  · rw [if_pos ha]
    exact Or.inl rfl
  rw [if_neg ha]
  cases body? with
  | none => exact Or.inl rfl
  | some body =>
    dsimp only
    by_cases hobj : (!body.isObj) = true
    · rw [if_pos hobj]
      exact Or.inl rfl
    rw [if_neg hobj]
    by_cases h0 : exportTypeOfBody body = ""
    · rw [if_pos h0]
      exact Or.inl rfl
    rw [if_neg h0]
    by_cases hsup : (!(exportTypeOfBody body = "pdf" || exportTypeOfBody body = "docx" ||
        exportTypeOfBody body = "csv")) = true
    · rw [if_pos hsup]
      exact Or.inl rfl
    rw [if_neg hsup]
    by_cases hp : exportTypeOfBody body = "pdf"
    · rw [if_pos hp]
      cases hres : pdfBuild (pdf_story (titleOf body) (contentOf body)) with
      | error e => exact Or.inl rfl
      | ok val => exact Or.inr rfl
    rw [if_neg hp]
    by_cases hx : exportTypeOfBody body = "docx"
    · rw [if_pos hx]
      cases hres : docxSave (docx_document (titleOf body) (contentOf body)) with
      | error e => exact Or.inl rfl
      | ok val => exact Or.inr rfl
    rw [if_neg hx]
    exact Or.inr rfl

theorem generate_data_complete (key auth : String) (body : JVal)
    (pdfBuild docxSave : List String → Except String (List Nat)) (d : List Nat)
    (hd : (generate key auth (some body) pdfBuild docxSave).data = some d) :
    pdfBuild (pdf_story (titleOf body) (contentOf body)) = Except.ok d ∨
    docxSave (docx_document (titleOf body) (contentOf body)) = Except.ok d ∨
    d = MCA.App.generate_csv (contentOf body) := by
  unfold generate at hd
  by_cases hk : key = ""
  · rw [if_pos hk] at hd
    simp [httpException] at hd
  · rw [if_neg hk] at hd
    by_cases ha : auth ≠ "Bearer " ++ key
    · rw [if_pos ha] at hd
      simp [httpException] at hd
    · rw [if_neg ha] at hd
      by_cases hobj : body.isObj = true
      · by_cases h0 : exportTypeOfBody body = ""
        · simp [hobj, h0, httpException] at hd
        · by_cases hp : exportTypeOfBody body = "pdf"
          · simp only [hobj, hp] at hd
            cases hres : pdfBuild (pdf_story (titleOf body) (contentOf body)) with
            | error e =>
              rw [hres] at hd
              simp [httpException] at hd
            | ok val =>
              rw [hres] at hd
              simp at hd
              subst hd
              exact Or.inl rfl
          · by_cases hx : exportTypeOfBody body = "docx"
            · simp only [hobj, hx] at hd
              cases hres : docxSave (docx_document (titleOf body) (contentOf body)) with
              | error e =>
                rw [hres] at hd
                simp [httpException] at hd
              | ok val =>
                rw [hres] at hd
                simp at hd
                subst hd
                exact Or.inr (Or.inl rfl)
            · by_cases hc : exportTypeOfBody body = "csv"
              · simp only [hobj, hc] at hd
                simp at hd
                exact Or.inr (Or.inr hd.symm)
              · simp [hobj, h0, hp, hx, hc, httpException] at hd
      · simp only [Bool.not_eq_true] at hobj
        simp [hobj, httpException] at hd

/-- C8: an exception inside a renderer yields HTTP 500 with the fixed
generic detail — the same constant detail for every underlying error e,
so the underlying error does not appear in it — and no rendered bytes;
in general the response body is either the complete rendered output
(the external builder's exact result, or the exact CSV bytes) or
carries no bytes at all (every non-200 response has an empty data
field). -/
theorem c8_render_error_isolation (key auth : String) (body : JVal)
    (pdfBuild docxSave : List String → Except String (List Nat)) (e : String)
    (hkey : key ≠ "") (hauth : auth = "Bearer " ++ key) (hobj : body.isObj = true) :
    (exportTypeOfBody body = "pdf" →
      pdfBuild (pdf_story (titleOf body) (contentOf body)) = Except.error e →
      generate key auth (some body) pdfBuild docxSave =
        httpException 500
          "Export worker encountered an error while generating the file.") ∧
    (exportTypeOfBody body = "docx" →
      docxSave (docx_document (titleOf body) (contentOf body)) = Except.error e →
      generate key auth (some body) pdfBuild docxSave =
        httpException 500
          "Export worker encountered an error while generating the file.") ∧
    (∀ d : List Nat,
      (generate key auth (some body) pdfBuild docxSave).data = some d →
      pdfBuild (pdf_story (titleOf body) (contentOf body)) = Except.ok d ∨
      docxSave (docx_document (titleOf body) (contentOf body)) = Except.ok d ∨
      d = MCA.App.generate_csv (contentOf body)) ∧
    (∀ (k a : String) (b? : Option JVal),
      (generate k a b? pdfBuild docxSave).status ≠ 200 →
      (generate k a b? pdfBuild docxSave).data = none) := by
  subst hauth
  have hbearer : ¬("Bearer " ++ key ≠ "Bearer " ++ key) := fun h => h rfl
  refine ⟨?_, ?_, ?_, ?_⟩
  · intro ht herr
    unfold generate
    rw [if_neg hkey, if_neg hbearer]
    simp [hobj, ht, herr, httpException]
  · intro ht herr
    unfold generate
    rw [if_neg hkey, if_neg hbearer]
    simp [hobj, ht, herr, httpException]
  · intro d hd
    exact generate_data_complete key _ body pdfBuild docxSave d hd
  · intro k a b? hne
    exact (generate_data_none_or_status200 k a b? pdfBuild docxSave).resolve_right hne

/-- Witness for C8: a concrete authenticated pdf request whose external
builder raises. -/
theorem c8_render_error_isolation_witness :
    generate "k" "Bearer k" (some (JVal.obj [("type", JVal.str "pdf")]))
      (fun _ => Except.error "boom") (fun _ => Except.ok []) =
      httpException 500
        "Export worker encountered an error while generating the file." :=
  (c8_render_error_isolation "k" "Bearer k" (JVal.obj [("type", JVal.str "pdf")])
    (fun _ => Except.error "boom") (fun _ => Except.ok []) "boom"
    (by decide) rfl rfl).1 rfl rfl
